import Mathlib

/-!
# Verification of the ConciergeTGBot event/reminder lifecycle engine

Shallow embedding of `src/DatabaseManager.py` and `src/concierge.py`.

Conventions of the embedding:

* Instants are integers counting seconds of US/Eastern civil time, with
  second `0` at 2025-01-01T00:00.  Every timestamp the program handles is
  produced and compared in the `eastern` timezone, so a single linear count
  suffices (no UTC conversion appears in the source).  Calendar days are
  `t / 86400`; `datetime.date.today()` is taken in the same zone.
* A SQLite table is a `List` of row structures in rowid order.
  `INSERT OR REPLACE` deletes the conflicting row and appends a fresh one
  (the replacement receives a fresh rowid, hence moves to the end);
  unspecified columns take their schema defaults.
* `reminders_sent` is stored as the JSON text of a list of day counts; the
  embedding carries the decoded list (`json.dumps`/`json.loads` form a
  bijection between the two representations for lists of integers).
* Fallible Python code is modelled with explicit error results: a
  `ValueError` raised by tuple unpacking, or an uncaught exception leaving
  a loop, surfaces as an error value.
-/

namespace Concierge

/-- Seconds in one civil day. -/
def secondsPerDay : Int := 86400

/-- A row of the `users` table (schema in `DatabaseManager.init_database`).
The columns through `user_posted` are exactly the ones `CREATE TABLE users`
declares.  The `welcomed` column is referenced by `concierge.py`
(`get_unwelcomed_users_non_private`, `mark_users_welcomed`) but the schema in
`src/DatabaseManager.py` predates it; it is modelled from the spec as a
boolean flag defaulting to false, like the other flags. -/
structure UserRow where
  chat_id : Int
  user_id : Int
  username : Option String
  first_name : String
  join_time : Int
  first_intro_sent : Bool := false
  second_intro_sent : Bool := false
  notification_subscription : Bool := false
  user_posted : Bool := false
  welcomed : Bool := false
deriving Repr, DecidableEq

/-- A row of the `events` table. -/
structure EventRow where
  id : Int
  chat_id : Int
  message_id : Int
  sender_id : Int
  event_datetime : Int
  location : String
  reminders_sent : List Int
  created_at : Int
  updated_at : Int
deriving Repr, DecidableEq

/-- `DatabaseManager.add_new_user`: `INSERT OR REPLACE INTO users
(chat_id, user_id, username, first_name, join_time) VALUES (...)`.
The `UNIQUE(chat_id, user_id)` conflict row is deleted and a fresh row is
inserted; all flag columns revert to their schema defaults. -/
def add_new_user (t : List UserRow) (chat_id user_id : Int)
    (username : Option String) (first_name : String) (now : Int) :
    List UserRow :=
  t.filter (fun r => !(r.chat_id == chat_id && r.user_id == user_id)) ++
    [{ chat_id := chat_id, user_id := user_id, username := username,
       first_name := first_name, join_time := now }]

/-- `DatabaseManager.get_user_private_chat`: `SELECT * FROM users WHERE
chat_id = ? AND user_id = ?` with both parameters equal to `user_id`. -/
def get_user_private_chat (t : List UserRow) (user_id : Int) :
    Option UserRow :=
  t.find? (fun r => r.chat_id == user_id && r.user_id == user_id)

/-- `DatabaseManager.mark_user_posted`: `UPDATE users SET user_posted = 1
WHERE chat_id = ? AND user_id = ?`. -/
def mark_user_posted (t : List UserRow) (chat_id user_id : Int) :
    List UserRow :=
  t.map (fun r =>
    if r.chat_id == chat_id && r.user_id == user_id then
      { r with user_posted := true }
    else r)

/-- `DatabaseManager.toggle_notification_subscription`: `UPDATE users SET
notification_subscription = NOT notification_subscription WHERE chat_id = ?
AND user_id = ?`, both parameters bound to `user_id`. -/
def toggle_notification_subscription (t : List UserRow) (user_id : Int) :
    List UserRow :=
  t.map (fun r =>
    if r.chat_id == user_id && r.user_id == user_id then
      { r with notification_subscription := !r.notification_subscription }
    else r)

/-- `DatabaseManager.get_user_notification_status`: `SELECT
notification_subscription FROM users WHERE user_id = ?` — note: no
`chat_id` constraint; `fetchone` returns the first matching row. -/
def get_user_notification_status (t : List UserRow) (user_id : Int) :
    Option Bool :=
  (t.find? (fun r => r.user_id == user_id)).map
    (fun r => r.notification_subscription)

/-- `DatabaseManager.get_users_for_notification`: `SELECT ... FROM users
WHERE notification_subscription = 1`. -/
def get_users_for_notification (t : List UserRow) : List UserRow :=
  t.filter (fun r => r.notification_subscription)

/-- `DatabaseManager.get_users_for_intro`: for stage `"first"` the query is
`WHERE user_posted = 0 AND first_intro_sent = 0 AND join_time <= ?` with the
parameter `now - timedelta(seconds=15)`; for the other stage the flag is
`second_intro_sent` and the cutoff `now - timedelta(seconds=30)`.
(The in-code comments claim "3+ days ago" / "5+ days ago".) -/
def get_users_for_intro (t : List UserRow) (stage : String) (now : Int) :
    List UserRow :=
  if stage == "first" then
    t.filter (fun r =>
      !r.user_posted && !r.first_intro_sent &&
        decide (r.join_time ≤ now - 15))
  else
    t.filter (fun r =>
      !r.user_posted && !r.second_intro_sent &&
        decide (r.join_time ≤ now - 30))

/-- `DatabaseManager.mark_intro_sent`: sets `first_intro_sent` or
`second_intro_sent` to 1 for one `(chat_id, user_id)`. -/
def mark_intro_sent (t : List UserRow) (chat_id user_id : Int)
    (stage : String) : List UserRow :=
  t.map (fun r =>
    if r.chat_id == chat_id && r.user_id == user_id then
      if stage == "first" then { r with first_intro_sent := true }
      else { r with second_intro_sent := true }
    else r)

/-- Modelled from the spec: `DatabaseManager.mark_users_welcomed` is called
by `concierge.send_daily_welcome` but is absent from `src/DatabaseManager.py`.
Per spec §4.1 (`set_member_flags(identity_list, flag_name=true)`: bulk
monotonic flag set, batched by chat) it sets `welcomed := true` for the
listed users of one chat. -/
def mark_users_welcomed (t : List UserRow) (chat_id : Int)
    (user_ids : List Int) : List UserRow :=
  t.map (fun r =>
    if r.chat_id == chat_id && user_ids.contains r.user_id then
      { r with welcomed := true }
    else r)

/-- Modelled from the spec: `DatabaseManager.mark_users_intro_sent` is
called by `concierge.send_intro_reminders` but is absent from
`src/DatabaseManager.py`.  Per spec §4.1 it is the bulk form of the
monotonic first-stage intro flag set (`mark_intro_sent` with stage
`"first"` applied to a list of users of one chat). -/
def mark_users_intro_sent (t : List UserRow) (chat_id : Int)
    (user_ids : List Int) : List UserRow :=
  t.map (fun r =>
    if r.chat_id == chat_id && user_ids.contains r.user_id then
      { r with first_intro_sent := true }
    else r)

/-- Modelled from the spec: `DatabaseManager.get_unwelcomed_users_non_private`
is called by `concierge.send_daily_welcome` but is absent from
`src/DatabaseManager.py`.  Per spec §4.2 ("Needs welcome": `welcomed=false
AND chat_id is a group`) and §4.1 (group chats are distinguished by a
negative chat identifier convention). -/
def get_unwelcomed_users_non_private (t : List UserRow) : List UserRow :=
  t.filter (fun r => !r.welcomed && decide (r.chat_id < 0))

/-- Largest rowid in the events table (0 when empty); SQLite assigns
`max + 1` to the next inserted row. -/
def nextEventId (t : List EventRow) : Int :=
  1 + t.foldl (fun m r => max m r.id) 0

/-- `DatabaseManager.add_event`: `INSERT OR REPLACE INTO events
(chat_id, message_id, sender_id, event_datetime, location, updated_at)
VALUES (...)`.  The `UNIQUE(chat_id, message_id)` conflict row is deleted
and a fresh row inserted; `reminders_sent` and `created_at` are not in the
column list, so they take their schema defaults (`'[]'` and the current
timestamp), and the row gets a fresh id. -/
def add_event (t : List EventRow) (chat_id message_id sender_id : Int)
    (event_datetime : Int) (location : String) (now : Int) :
    List EventRow :=
  t.filter (fun r => !(r.chat_id == chat_id && r.message_id == message_id))
    ++ [{ id := nextEventId t, chat_id := chat_id, message_id := message_id,
          sender_id := sender_id, event_datetime := event_datetime,
          location := location, reminders_sent := [], created_at := now,
          updated_at := now }]

/-- `DatabaseManager.get_event` (referenced by
`concierge.handle_event_tagged_message_edit`): lookup by
`(chat_id, message_id)`. -/
def get_event (t : List EventRow) (chat_id message_id : Int) :
    Option EventRow :=
  t.find? (fun r => r.chat_id == chat_id && r.message_id == message_id)

/-- `DatabaseManager.update_event_reminders`: `UPDATE events SET
reminders_sent = ? WHERE id = ?`.  (Defined by the store; never invoked by
`concierge.py`.) -/
def update_event_reminders (t : List EventRow) (event_id : Int)
    (reminders : List Int) : List EventRow :=
  t.map (fun r =>
    if r.id == event_id then { r with reminders_sent := reminders } else r)

/-- `DatabaseManager.delete_event`: `DELETE FROM events WHERE chat_id = ?
AND message_id = ?`. -/
def delete_event (t : List EventRow) (chat_id message_id : Int) :
    List EventRow :=
  t.filter (fun r => !(r.chat_id == chat_id && r.message_id == message_id))

/-- One field of a fetched row, as the Python tuples carry them: an integer
column, a text column, or the decoded `reminders_sent` list. -/
inductive Field where
  | int (i : Int)
  | str (s : String)
  | intList (l : List Int)
deriving Repr, DecidableEq

/-- `DatabaseManager.get_events_for_reminders`: `SELECT id, chat_id,
message_id, sender_id, event_datetime, location, reminders_sent, updated_at
FROM events WHERE event_datetime > ?` with the current instant as parameter;
each fetched row is the 8-tuple of those columns in that order. -/
def get_events_for_reminders (t : List EventRow) (now : Int) :
    List (List Field) :=
  (t.filter (fun r => decide (now < r.event_datetime))).map (fun r =>
    [Field.int r.id, Field.int r.chat_id, Field.int r.message_id,
     Field.int r.sender_id, Field.int r.event_datetime,
     Field.str r.location, Field.intList r.reminders_sent,
     Field.int r.updated_at])

/-- The reminder schedule of `check_and_send_event_reminders`:
`reminder_days = [7, 3, 1, 0]`. -/
def reminder_days : List Int := [7, 3, 1, 0]

/-- The offset selection of the loop body of
`check_and_send_event_reminders`: the first `days_before` in
`reminder_days` with `today == event_date - timedelta(days=days_before)`
(`None` when no offset's date is exactly today — missed reminders are
skipped). -/
def todays_reminder (today event_date : Int) : Option Int :=
  reminder_days.find? (fun d => today == event_date - d)

/-- Per-event decision of the loop body of
`check_and_send_event_reminders`: select `todays_reminder` for the event's
calendar date, then skip when `reminder_datetime` (9:00 of `today`) is
earlier than the event's `updated_at`. -/
def eventReminderFor (today event_datetime updated_at : Int) : Option Int :=
  (todays_reminder today (event_datetime / secondsPerDay)).bind (fun d =>
    if today * secondsPerDay + 9 * 3600 < updated_at then none
    else some d)

/-- One outbound reminder message: destination chat, the event row id it
concerns, and the `days_before` offset it announces. -/
structure Reminder where
  chat_id : Int
  event_id : Int
  days_before : Int
deriving Repr, DecidableEq

/-- The messages the loop body of `check_and_send_event_reminders` sends
for one selected event: one per subscribed user, then one to the event's
group chat (as a reply to the source message). -/
def reminder_sends (users : List UserRow) (event_id chat_id d : Int) :
    List Reminder :=
  (get_users_for_notification users).map
    (fun u => { chat_id := u.chat_id, event_id := event_id,
                days_before := d }) ++
    [{ chat_id := chat_id, event_id := event_id, days_before := d }]

/-- The loop of `check_and_send_event_reminders`.  Its header

```
for (event_id, chat_id, message_id, _, event_datetime, location,
     updated_at) in events:
```

binds seven targets, but every row produced by
`get_events_for_reminders` has eight fields; in Python the unpacking then
raises `ValueError: too many values to unpack (expected 7)`, which nothing
catches.  The seven-element pattern below mirrors the seven targets (with
the element types the body requires), and any other row shape — in
particular every actual 8-field row — takes the error branch. -/
def check_loop (users : List UserRow) (today : Int) :
    List (List Field) → Except String (List Reminder)
  | [] => Except.ok []
  | row :: rest =>
    match row with
    | [Field.int event_id, Field.int chat_id, Field.int _message_id, _,
       Field.int event_datetime, Field.str _location,
       Field.int updated_at] =>
        let sends :=
          match eventReminderFor today event_datetime updated_at with
          | none => []
          | some d => reminder_sends users event_id chat_id d
        match check_loop users today rest with
        | Except.ok more => Except.ok (sends ++ more)
        | Except.error e => Except.error e
    | _ => Except.error "ValueError: too many values to unpack (expected 7)"

/-- `concierge.check_and_send_event_reminders`: fetch the future events and
run the loop.  `today` is the calendar day of `now`.  The function performs
no store write: `update_event_reminders` is never called anywhere in
`concierge.py`, so the events table is unchanged by a run. -/
def check_and_send_event_reminders (users : List UserRow)
    (events : List EventRow) (now : Int) : Except String (List Reminder) :=
  check_loop users (now / secondsPerDay) (get_events_for_reminders events now)

/-- The sends the loop body of `check_and_send_event_reminders` specifies,
with each selected column bound to the variable of the same name (i.e. the
behaviour the body's text describes; the shipped loop header mis-counts the
columns, see `check_loop`). -/
def body_reminders (users : List UserRow) (events : List EventRow)
    (now : Int) : List Reminder :=
  (events.filter (fun r => decide (now < r.event_datetime))).foldr
    (fun r acc =>
      (match eventReminderFor (now / secondsPerDay) r.event_datetime
          r.updated_at with
       | none => []
       | some d => reminder_sends users r.id r.chat_id d) ++ acc) []

/-- A full tick of the daily event-reminder job at body level: the sends,
and the events table afterwards.  The body contains no store write (no call
to `update_event_reminders`), so the table passes through unchanged. -/
def body_tick (users : List UserRow) (events : List EventRow) (now : Int) :
    List Reminder × List EventRow :=
  (body_reminders users events now, events)

/-- Outcome of the probe in `cleanup_deleted_events` (forward the source
message to its sender, then delete the forwarded copy): success, a caught
`BadRequest`/`Forbidden` with its error text, or any other exception, which
the `try` does not catch. -/
inductive ProbeResult where
  | ok
  | badRequest (msg : String)
  | forbidden (msg : String)
  | otherError
deriving Repr, DecidableEq

/-- Containment of one string in another (Python's `in` on `str`). -/
def strContains (hay needle : String) : Bool :=
  decide (needle.data <:+: hay.data)

/-- ASCII lowercasing, character by character (Python's `str.lower` on the
ASCII error texts involved here). -/
def strLower (s : String) : String :=
  String.mk (s.data.map Char.toLower)

/-- The error-text classification of `cleanup_deleted_events`: the caught
exception's lowercased text must contain one of four phrases for the event
to be treated as deleted. -/
def message_gone (msg : String) : Bool :=
  strContains (strLower msg) "message to forward not found" ||
  strContains (strLower msg) "message_id_invalid" ||
  strContains (strLower msg) "bots can\x27t send messages to bots" ||
  strContains (strLower msg) "bot was blocked by the user"

/-- The loop of `cleanup_deleted_events`.  Its header

```
for (event_id, chat_id, message_id, sender_id, event_datetime, _, _)
    in events:
```

binds seven targets against the same 8-field rows of
`get_events_for_reminders`, so in Python the unpacking raises `ValueError`
(nothing catches it); the seven-element pattern mirrors the seven targets
and every actual row takes the error branch.  The body: probe the source
message; on a caught `BadRequest`/`Forbidden` whose text matches
`message_gone`, send cancellation notices and `delete_event`; on any other
caught error text, leave the store unchanged; an uncaught exception ends
the job.  Returns the events table afterwards and the uncaught error, if
any. -/
def cleanup_loop (probe : Int → Int → ProbeResult) :
    List (List Field) → List EventRow → List EventRow × Option String
  | [], store => (store, none)
  | row :: rest, store =>
    match row with
    | [Field.int _event_id, Field.int chat_id, Field.int message_id,
       Field.int _sender_id, Field.int _event_datetime, _, _] =>
        match probe chat_id message_id with
        | ProbeResult.ok => cleanup_loop probe rest store
        | ProbeResult.badRequest m =>
            if message_gone m then
              cleanup_loop probe rest (delete_event store chat_id message_id)
            else cleanup_loop probe rest store
        | ProbeResult.forbidden m =>
            if message_gone m then
              cleanup_loop probe rest (delete_event store chat_id message_id)
            else cleanup_loop probe rest store
        | ProbeResult.otherError => (store, some "uncaught exception")
    | _ =>
        (store, some "ValueError: too many values to unpack (expected 7)")

/-- `concierge.cleanup_deleted_events`: fetch the future events and run the
cleanup loop over them. -/
def cleanup_deleted_events (probe : Int → Int → ProbeResult)
    (events : List EventRow) (now : Int) : List EventRow × Option String :=
  cleanup_loop probe (get_events_for_reminders events now) events

/-- The mention text built for one member in `send_daily_welcome` and
`send_intro_reminders`: `@username` when a username exists, otherwise an
HTML `tg://user` link around the first name. -/
def mention (r : UserRow) : String :=
  match r.username with
  | some un => "@" ++ un
  | none =>
      "<a href=\"tg://user?id=" ++ toString r.user_id ++ "\">" ++
        r.first_name ++ "</a>"

/-- The `users_by_chat` dictionary both notification jobs build: members
grouped by `chat_id`, one bucket per distinct chat in first-occurrence
order, each bucket in encounter order (Python dict-insertion semantics). -/
def group_by_chat : List UserRow → List (Int × List UserRow)
  | [] => []
  | r :: rs =>
      (r.chat_id, r :: rs.filter (fun x => x.chat_id == r.chat_id)) ::
        group_by_chat (rs.filter (fun x => !(x.chat_id == r.chat_id)))
termination_by l => l.length
decreasing_by
  simp only [List.length_cons]
  exact Nat.lt_succ_of_le (List.length_filter_le _ _)

/-- The outbound messages of `concierge.send_daily_welcome`: one message
per chat bucket, carrying the mention of every member of the bucket (the
body additionally skips a bucket whose mention list is empty — dead code,
since every bucket holds at least one member). -/
def welcome_messages (t : List UserRow) : List (Int × List String) :=
  (group_by_chat (get_unwelcomed_users_non_private t)).filterMap
    (fun g =>
      let mentions := g.2.map mention
      if mentions.isEmpty then none else some (g.1, mentions))

/-- Per-chat step of `send_daily_welcome`: inside one `try`, send the
single welcome message of the chat and, only when that delivery succeeded,
mark every member of the bucket welcomed; a `TelegramError` is logged and
marks nothing.  `notif` records which chats the delivery (the
`get_chat` + `send_message` pair) succeeds for. -/
def welcome_step (notif : Int → Bool) (tbl : List UserRow)
    (g : Int × List UserRow) : List UserRow :=
  if (g.2.map mention).isEmpty then tbl
  else if notif g.1 then
    mark_users_welcomed tbl g.1 (g.2.map (fun r => r.user_id))
  else tbl

/-- `concierge.send_daily_welcome` as a store transformer: group the query
result by chat and run the per-chat step over the buckets. -/
def send_daily_welcome (t : List UserRow) (notif : Int → Bool) :
    List UserRow :=
  (group_by_chat (get_unwelcomed_users_non_private t)).foldl
    (welcome_step notif) t

/-- Per-chat step of `send_intro_reminders`, identical in shape to
`welcome_step` but marking the first-stage intro flag. -/
def intro_step (notif : Int → Bool) (tbl : List UserRow)
    (g : Int × List UserRow) : List UserRow :=
  if (g.2.map mention).isEmpty then tbl
  else if notif g.1 then
    mark_users_intro_sent tbl g.1 (g.2.map (fun r => r.user_id))
  else tbl

/-- `concierge.send_intro_reminders` as a store transformer: return
unchanged unless the day of month is 1, 8, 15 or 22; otherwise group the
intro-candidate query result by chat and run the per-chat step.  The
candidate query `db.get_users_for_intro_reminder()` is absent from
`src/DatabaseManager.py`; the selection logic present in src is
`get_users_for_intro` with stage `"first"`, which is bound here. -/
def send_intro_reminders (t : List UserRow) (now day_of_month : Int)
    (notif : Int → Bool) : List UserRow :=
  if day_of_month == 1 || day_of_month == 8 || day_of_month == 15 ||
      day_of_month == 22 then
    (group_by_chat (get_users_for_intro t "first" now)).foldl
      (intro_step notif) t
  else t

/-- The due condition claim C4 states, in the spec's words: `now ≥
event_time − d` AND `d ∉ reminder_offsets_sent` AND `event_time − d ≥
last_modified`, with the offset `d` counted in days. -/
def spec_reminder_due (now event_time last_modified : Int)
    (sent : List Int) (d : Int) : Prop :=
  now ≥ event_time - d * secondsPerDay ∧ d ∉ sent ∧
    event_time - d * secondsPerDay ≥ last_modified

/-- The first-stage intro selection condition claim C7 states, in the
spec's words: `has_posted=false AND intro_reminder_sent=false AND
now − join_time ≥ 3 days AND chat_id is a group` (negative chat id). -/
def spec_needs_first_intro (now : Int) (r : UserRow) : Prop :=
  r.user_posted = false ∧ r.first_intro_sent = false ∧
    now - r.join_time ≥ 3 * secondsPerDay ∧ r.chat_id < 0

/-! ## Concrete fixtures

Instants count seconds of US/Eastern civil time from 2025-01-01T00:00,
so 2025-01-08T00:00 is second `7 * 86400 = 604800`. -/

/-- An event in group chat `-100`, anchored to message 9, scheduled for
2025-01-08T00:00, created (and last modified) 2025-01-01T00:00, with no
reminder offsets sent yet. -/
def exampleEvent : EventRow :=
  { id := 1, chat_id := -100, message_id := 9, sender_id := 5,
    event_datetime := 7 * 86400, location := "HQ", reminders_sent := [],
    created_at := 0, updated_at := 0 }

/-- The same event after the 7-day offset was recorded as sent (the state
the spec says an edit must preserve). -/
def editedEvent : EventRow := { exampleEvent with reminders_sent := [7] }

/-- A private-chat user subscribed to notifications. -/
def exampleSubscriber : UserRow :=
  { chat_id := 42, user_id := 42, username := some "ann",
    first_name := "Ann", join_time := 0,
    notification_subscription := true }

/-- A group member who has posted, received the first intro and been
welcomed — every monotonic flag already true. -/
def veteran : UserRow :=
  { chat_id := -100, user_id := 42, username := none, first_name := "Ann",
    join_time := 0, first_intro_sent := true, user_posted := true,
    welcomed := true }

/-- A group member who joined one hour before `10 * 86400` and has neither
posted nor received an intro. -/
def lateJoiner : UserRow :=
  { chat_id := -100, user_id := 42, username := none, first_name := "Ann",
    join_time := 10 * 86400 - 3600 }

/-! ## Claim C1 -/

/-- Claim C1 (code_bug): the daily event-reminder tick is not idempotent —
in fact it cannot run at all.  On a store holding one future event and one
subscriber, `check_and_send_event_reminders` raises `ValueError` (its loop
unpacks the 8-column rows of `get_events_for_reminders` into 7 targets)
before sending anything; and at the level of its loop body, a run writes
nothing back (`update_event_reminders` is never called in `concierge.py`),
so a second run at the same instant over the returned store produces the
same non-empty batch of sends again instead of zero. -/
theorem C1_event_tick_not_idempotent :
    check_and_send_event_reminders [exampleSubscriber] [exampleEvent] 300 =
      Except.error "ValueError: too many values to unpack (expected 7)" ∧
    (body_tick [exampleSubscriber] [exampleEvent] 300).2 = [exampleEvent] ∧
    (body_tick [exampleSubscriber]
        ((body_tick [exampleSubscriber] [exampleEvent] 300).2) 300).1 =
      (body_tick [exampleSubscriber] [exampleEvent] 300).1 ∧
    (body_tick [exampleSubscriber] [exampleEvent] 300).1 ≠ [] := by
  refine ⟨rfl, rfl, rfl, ?_⟩
  decide

/-! ## Claim C2 -/

/-- Claim C2 counterexample: re-adding a member who rejoins resets the
monotonic flags.  `veteran` has `user_posted = true`, but after
`add_new_user` for the same `(chat_id, user_id)` the stored row has
`user_posted = false` (along with every other flag): `INSERT OR REPLACE`
deletes the old row and the unlisted columns revert to their defaults. -/
theorem C2_counterexample_rejoin_resets_flags :
    veteran.user_posted = true ∧ veteran.welcomed = true ∧
    ((add_new_user [veteran] (-100) 42 none "Ann" 500).find?
        (fun r => r.chat_id == -100 && r.user_id == 42)).map
      (fun r => (r.user_posted, r.welcomed, r.first_intro_sent)) =
      some (false, false, false) := by
  exact ⟨rfl, rfl, rfl⟩

/-- A per-row rewrite keeps the four flags monotone: whichever flag is
true before is still true after. -/
def flagMono (f : UserRow → UserRow) : Prop :=
  ∀ r : UserRow,
    (r.user_posted = true → (f r).user_posted = true) ∧
    (r.welcomed = true → (f r).welcomed = true) ∧
    (r.first_intro_sent = true → (f r).first_intro_sent = true) ∧
    (r.second_intro_sent = true → (f r).second_intro_sent = true)

/-- Monotone per-row rewrites stay monotone through `List.map`, read off
at any index. -/
theorem map_flagMono (f : UserRow → UserRow) (hf : flagMono f)
    (t : List UserRow) (i : Nat) (r r' : UserRow)
    (h1 : t[i]? = some r) (h2 : (t.map f)[i]? = some r') :
    (r.user_posted = true → r'.user_posted = true) ∧
    (r.welcomed = true → r'.welcomed = true) ∧
    (r.first_intro_sent = true → r'.first_intro_sent = true) ∧
    (r.second_intro_sent = true → r'.second_intro_sent = true) := by
  rw [List.getElem?_map, h1, Option.map_some'] at h2
  injection h2 with h2
  subst h2
  exact hf r

/-- Claim C2 (corrected): the flag-setting operations are monotonic — for
every row of the users table, `mark_user_posted`, `mark_intro_sent`,
`mark_users_welcomed`, `mark_users_intro_sent` and
`toggle_notification_subscription` never turn `user_posted`, `welcomed`,
`first_intro_sent` or `second_intro_sent` from true to false; only the
row-replacing upserts (`add_new_user` on a rejoin, and `add_event` for
`reminders_sent`, see C3) reset them. -/
theorem C2_amended_mark_ops_monotone :
    (∀ (t : List UserRow) (c u : Int) (i : Nat) (r r' : UserRow),
        t[i]? = some r → (mark_user_posted t c u)[i]? = some r' →
        (r.user_posted = true → r'.user_posted = true) ∧
        (r.welcomed = true → r'.welcomed = true) ∧
        (r.first_intro_sent = true → r'.first_intro_sent = true) ∧
        (r.second_intro_sent = true → r'.second_intro_sent = true)) ∧
    (∀ (t : List UserRow) (c u : Int) (s : String) (i : Nat)
        (r r' : UserRow),
        t[i]? = some r → (mark_intro_sent t c u s)[i]? = some r' →
        (r.user_posted = true → r'.user_posted = true) ∧
        (r.welcomed = true → r'.welcomed = true) ∧
        (r.first_intro_sent = true → r'.first_intro_sent = true) ∧
        (r.second_intro_sent = true → r'.second_intro_sent = true)) ∧
    (∀ (t : List UserRow) (c : Int) (us : List Int) (i : Nat)
        (r r' : UserRow),
        t[i]? = some r → (mark_users_welcomed t c us)[i]? = some r' →
        (r.user_posted = true → r'.user_posted = true) ∧
        (r.welcomed = true → r'.welcomed = true) ∧
        (r.first_intro_sent = true → r'.first_intro_sent = true) ∧
        (r.second_intro_sent = true → r'.second_intro_sent = true)) ∧
    (∀ (t : List UserRow) (c : Int) (us : List Int) (i : Nat)
        (r r' : UserRow),
        t[i]? = some r → (mark_users_intro_sent t c us)[i]? = some r' →
        (r.user_posted = true → r'.user_posted = true) ∧
        (r.welcomed = true → r'.welcomed = true) ∧
        (r.first_intro_sent = true → r'.first_intro_sent = true) ∧
        (r.second_intro_sent = true → r'.second_intro_sent = true)) ∧
    (∀ (t : List UserRow) (u : Int) (i : Nat) (r r' : UserRow),
        t[i]? = some r →
        (toggle_notification_subscription t u)[i]? = some r' →
        (r.user_posted = true → r'.user_posted = true) ∧
        (r.welcomed = true → r'.welcomed = true) ∧
        (r.first_intro_sent = true → r'.first_intro_sent = true) ∧
        (r.second_intro_sent = true → r'.second_intro_sent = true)) := by
  refine ⟨?_, ?_, ?_, ?_, ?_⟩
  · intro t c u
    simp only [mark_user_posted]
    refine map_flagMono _ (fun x => ?_) t
    refine ⟨?_, ?_, ?_, ?_⟩ <;>
      (intro hflag; split <;> simp [hflag])
  · intro t c u s
    simp only [mark_intro_sent]
    refine map_flagMono _ (fun x => ?_) t
    refine ⟨?_, ?_, ?_, ?_⟩ <;>
      (intro hflag; split <;> (try split) <;> simp [hflag])
  · intro t c us
    simp only [mark_users_welcomed]
    refine map_flagMono _ (fun x => ?_) t
    refine ⟨?_, ?_, ?_, ?_⟩ <;>
      (intro hflag; split <;> simp [hflag])
  · intro t c us
    simp only [mark_users_intro_sent]
    refine map_flagMono _ (fun x => ?_) t
    refine ⟨?_, ?_, ?_, ?_⟩ <;>
      (intro hflag; split <;> simp [hflag])
  · intro t u
    simp only [toggle_notification_subscription]
    refine map_flagMono _ (fun x => ?_) t
    refine ⟨?_, ?_, ?_, ?_⟩ <;>
      (intro hflag; split <;> simp [hflag])

/-- Claim C2 witness: the monotonicity theorem applied to the concrete
table `[veteran]` at index 0 for `mark_user_posted`. -/
theorem C2_amended_mark_ops_monotone_witness :
    ({ veteran with user_posted := true } : UserRow).user_posted = true := by
  have h2 : (mark_user_posted [veteran] (-100) 42)[0]? =
      some { veteran with user_posted := true } := by decide
  exact (C2_amended_mark_ops_monotone.1 [veteran] (-100) 42 0 veteran
    { veteran with user_posted := true } (by decide) h2).1 rfl

/-! ## Claim C3 -/

/-- Claim C3 counterexample: updating an existing event in place via
`add_event` resets `reminders_sent`.  `editedEvent` has
`reminders_sent = [7]`; after `add_event` with the same
`(chat_id, message_id)` and a new datetime and location, the stored row
has `reminders_sent = []`. -/
theorem C3_counterexample_edit_resets_offsets :
    editedEvent.reminders_sent = [7] ∧
    (get_event
        (add_event [editedEvent] (-100) 9 5 (9 * 86400) "Elsewhere" 300)
        (-100) 9).map (fun r => r.reminders_sent) = some [] := by
  exact ⟨rfl, rfl⟩

/-- Claim C3 (corrected): `add_event` on an existing identity replaces the
whole row.  After it runs, the row found at `(chat_id, message_id)` is a
fresh one: `sender_id`, `event_datetime`, `location` and `updated_at` take
the new values, while `reminders_sent` is reset to the empty list,
`created_at` to the current instant and the rowid is reassigned. -/
theorem C3_amended_add_event_replaces_row (t : List EventRow)
    (c m s dt : Int) (loc : String) (now : Int) :
    get_event (add_event t c m s dt loc now) c m =
      some { id := nextEventId t, chat_id := c, message_id := m,
             sender_id := s, event_datetime := dt, location := loc,
             reminders_sent := [], created_at := now,
             updated_at := now } := by
  unfold get_event add_event
  rw [List.find?_append]
  have hnone :
      (t.filter (fun r => !(r.chat_id == c && r.message_id == m))).find?
        (fun r => r.chat_id == c && r.message_id == m) = none := by
    rw [List.find?_eq_none]
    intro x hx
    have hmem := (List.mem_filter.1 hx).2
    simp only [Bool.not_eq_true'] at hmem
    simp [hmem]
  rw [hnone]
  simp

/-! ## Claim C5 -/

/-- Claim C5 (code_bug): in the concrete scenario (event created
2025-01-01T00:00 for 2025-01-08T00:00), the tick at 2025-01-01T00:01
raises `ValueError` instead of running; per the loop body's own logic the
7-day reminder would be selected, but the store comes back unchanged with
`reminders_sent` still `[]` (not `[7]` as the claim requires), because
`update_event_reminders` is never called.  The body sends nothing at
2025-01-06T23:59 and selects the 1-day reminder at 2025-01-07T00:01, again
with no persisted offset. -/
theorem C5_scenario_store_never_updated :
    check_and_send_event_reminders [] [exampleEvent] 60 =
      Except.error "ValueError: too many values to unpack (expected 7)" ∧
    body_tick [] [exampleEvent] 60 =
      ([{ chat_id := -100, event_id := 1, days_before := 7 }],
        [exampleEvent]) ∧
    exampleEvent.reminders_sent = [] ∧
    body_reminders [] [exampleEvent] (5 * 86400 + 86340) = [] ∧
    body_reminders [] [exampleEvent] (6 * 86400 + 60) =
      [{ chat_id := -100, event_id := 1, days_before := 1 }] := by
  exact ⟨rfl, rfl, rfl, rfl, rfl⟩

/-! ## Claim C6 -/

/-- Claim C6 (code_bug): the staleness pass never reaches its probe.  On a
store with one future event whose probe would report the source message
gone, `cleanup_deleted_events` ends with the unpacking `ValueError` (its
loop also binds 7 targets against 8-column rows) and the event is still in
the store — it is neither probed, deleted, nor announced as cancelled.
The error-text classification itself does match the claim's split
(`message_gone` accepts the not-found text and rejects a transient one),
and `delete_event` would remove the row, but neither is ever reached. -/
theorem C6_cleanup_crashes_before_probe :
    cleanup_deleted_events
        (fun _ _ => ProbeResult.badRequest "Message to forward not found")
        [exampleEvent] 60 =
      ([exampleEvent],
        some "ValueError: too many values to unpack (expected 7)") ∧
    message_gone "Message to forward not found" = true ∧
    message_gone "Request timed out" = false ∧
    delete_event [exampleEvent] (-100) 9 = [] := by
  exact ⟨rfl, by decide, by decide, rfl⟩

/-! ## Claim C7 -/

/-- Claim C7 (code_bug): the first-stage intro selection does not use a
3-day threshold or a group-chat restriction.  `lateJoiner` joined one hour
before the query instant, far less than 3 days, yet
`get_users_for_intro` stage `"first"` selects them (its cutoff is
`now - 15` seconds, despite the code's own comment "Users who joined 3+
days ago"), so the spec's selection condition is false for them while the
code selects them. -/
theorem C7_intro_threshold_is_fifteen_seconds :
    get_users_for_intro [lateJoiner] "first" (10 * 86400) = [lateJoiner] ∧
    ¬ spec_needs_first_intro (10 * 86400) lateJoiner := by
  constructor
  · rfl
  · intro h
    have h2 := h.2.2.1
    revert h2
    decide

/-! ## Claim C4 -/

/-- When a predicate has a unique possible witness, `find?` succeeds with
`d` iff `d` is a member satisfying it. -/
theorem find?_unique_iff {α : Type} (p : α → Bool) (w : α)
    (hw : ∀ a, p a = true → a = w) :
    ∀ (l : List α) (d : α), l.find? p = some d ↔ d ∈ l ∧ p d = true := by
  intro l
  induction l with
  | nil => simp
  | cons x xs ih =>
      intro d
      cases hx : p x with
      | true =>
          rw [List.find?_cons_of_pos _ hx]
          constructor
          · intro h
            injection h with h
            subst h
            exact ⟨List.mem_cons_self x xs, hx⟩
          · rintro ⟨hd, hpd⟩
            have hdw : d = w := hw d hpd
            have hxw : x = w := hw x hx
            rw [hdw, hxw]

      | false =>
          rw [List.find?_cons_of_neg _ (by simp [hx]), ih]
          constructor
          · rintro ⟨hd, hpd⟩
            exact ⟨List.mem_cons_of_mem _ hd, hpd⟩
          · rintro ⟨hd, hpd⟩
            rcases List.mem_cons.mp hd with rfl | hd2
            · rw [hpd] at hx
              cases hx
            · exact ⟨hd2, hpd⟩

/-- `todays_reminder` selects an offset iff it is the (necessarily unique)
schedule entry whose reminder date is exactly today. -/
theorem todays_reminder_eq_some_iff (today E d : Int) :
    todays_reminder today E = some d ↔
      d ∈ reminder_days ∧ today = E - d := by
  unfold todays_reminder
  rw [find?_unique_iff (fun x => today == E - x) (E - today) ?_
    reminder_days d]
  · simp [beq_iff_eq]
  · intro a ha
    simp only [beq_iff_eq] at ha
    omega

/-- Claim C4 counterexample: the spec's due condition holds for the 7-day
offset of `exampleEvent` at the 2025-01-02 09:00 tick (now is past
`event_time − 7d`, the offset is unsent, and `event_time − 7d` is not
before `last_modified`), yet nothing fires: the loop body selects no
offset (2025-01-02 is not exactly 7, 3, 1 or 0 days before the event) and
the tick as shipped raises `ValueError` anyway. -/
theorem C4_counterexample_due_offset_does_not_fire :
    spec_reminder_due 118800 604800 0 [] 7 ∧
    body_reminders [] [exampleEvent] 118800 = [] ∧
    check_and_send_event_reminders [] [exampleEvent] 118800 =
      Except.error "ValueError: too many values to unpack (expected 7)" := by
  refine ⟨⟨by decide, by decide, by decide⟩, rfl, rfl⟩

/-- Claim C4 (corrected): per evaluated event, the loop body selects the
offset `d` iff `d` is in the `[7, 3, 1, 0]` schedule, today is exactly
`event_date − d` (calendar-day equality — earlier missed offsets are
skipped, later ones not yet due), and the event's `updated_at` is not
later than 09:00 of today; `reminder_offsets_sent` is not consulted.  At
most one offset can satisfy the date equality, so at most one fires per
event per pass.  (The enclosing loop additionally raises before evaluating
any event — see C1.) -/
theorem C4_amended_fire_condition (today edt uat d : Int) :
    eventReminderFor today edt uat = some d ↔
      d ∈ reminder_days ∧ today = edt / secondsPerDay - d ∧
        uat ≤ today * secondsPerDay + 9 * 3600 := by
  unfold eventReminderFor
  constructor
  · intro h
    cases hfind : todays_reminder today (edt / secondsPerDay) with
    | none => rw [hfind] at h; simp at h
    | some d0 =>
        rw [hfind] at h
        simp only [Option.some_bind] at h
        by_cases hu : today * secondsPerDay + 9 * 3600 < uat
        · rw [if_pos hu] at h
          cases h
        · rw [if_neg hu] at h
          injection h with h
          rw [h] at hfind
          have hchar := (todays_reminder_eq_some_iff today
            (edt / secondsPerDay) d).1 hfind
          refine ⟨hchar.1, hchar.2, ?_⟩
          simp only [secondsPerDay] at hu ⊢
          omega
  · rintro ⟨hd, ht, hu⟩
    have hfind : todays_reminder today (edt / secondsPerDay) = some d :=
      (todays_reminder_eq_some_iff today (edt / secondsPerDay) d).2 ⟨hd, ht⟩
    rw [hfind]
    simp only [Option.some_bind]
    rw [if_neg (by simp only [secondsPerDay] at hu ⊢; omega)]

/-! ## Claim C10 -/

/-- When the key images of a list are pairwise distinct, at most one
element satisfies any predicate that pins the key to a single value. -/
theorem length_filter_le_one_of_nodup_map {α β : Type} [DecidableEq β]
    (p : α → Bool) (f : α → β) (b : β) (hp : ∀ a, p a = true → f a = b) :
    ∀ l : List α, (l.map f).Nodup → (l.filter p).length ≤ 1 := by
  intro l
  induction l with
  | nil => simp
  | cons x xs ih =>
      intro h
      simp only [List.map_cons, List.nodup_cons] at h
      rw [List.filter_cons]
      by_cases hx : p x = true
      · rw [if_pos hx]
        have hempty : xs.filter p = [] := by
          rw [List.filter_eq_nil_iff]
          intro a ha hpa
          have hmem : b ∈ xs.map f := by
            have := List.mem_map_of_mem f ha
            rwa [hp a hpa] at this
          rw [← hp x hx] at hmem
          exact h.1 hmem
        simp [hempty]
      · rw [if_neg hx]
        exact ih h.2

/-- A per-row rewrite that only touches rows satisfying `p` changes at
most as many positions as there are rows satisfying `p`. -/
theorem countP_zip_map_le {α : Type} [DecidableEq α] (f : α → α)
    (p : α → Bool) (hf : ∀ a, p a = false → f a = a) :
    ∀ l : List α,
      ((l.map f).zip l).countP (fun q => !(q.1 == q.2)) ≤
        (l.filter p).length := by
  intro l
  induction l with
  | nil => simp
  | cons x xs ih =>
      by_cases hx : p x = true
      · simp only [List.map_cons, List.zip_cons_cons, List.countP_cons,
          List.filter_cons, hx, if_true, List.length_cons]
        split <;> omega
      · have hfx : f x = x := hf x (by simpa using hx)
        simp only [List.map_cons, List.zip_cons_cons, List.countP_cons,
          List.filter_cons, hx, if_false, hfx, beq_self_eq_true,
          Bool.not_true, Bool.false_eq_true, Nat.add_zero]
        exact ih

/-- Claim C10: `toggle_notification_subscription user_id` leaves every row
whose `chat_id` differs from `user_id` untouched (in particular the same
user's rows in group chats); the number of mutated rows is bounded by the
number of rows matching `(user_id, user_id)`, which under the
`UNIQUE(chat_id, user_id)` constraint is at most one — so at most the
single private-chat row is mutated. -/
theorem C10_toggle_touches_only_private_row (t : List UserRow)
    (uid : Int) :
    (∀ (i : Nat) (r : UserRow), t[i]? = some r → r.chat_id ≠ uid →
        (toggle_notification_subscription t uid)[i]? = some r) ∧
    (((toggle_notification_subscription t uid).zip t).countP
        (fun p => !(p.1 == p.2)) ≤
      (t.filter (fun r => r.chat_id == uid && r.user_id == uid)).length) ∧
    ((t.map (fun r => (r.chat_id, r.user_id))).Nodup →
      (t.filter
          (fun r => r.chat_id == uid && r.user_id == uid)).length ≤ 1) := by
  refine ⟨?_, ?_, ?_⟩
  · intro i r h1 hne
    rw [toggle_notification_subscription, List.getElem?_map, h1,
      Option.map_some']
    have hcond : (r.chat_id == uid && r.user_id == uid) = false := by
      simp [hne]
    simp [hcond]
  · refine countP_zip_map_le _
      (fun r => r.chat_id == uid && r.user_id == uid) ?_ t
    intro a ha
    simp [ha]
  · intro h
    refine length_filter_le_one_of_nodup_map _
      (fun r => (r.chat_id, r.user_id)) (uid, uid) ?_ t h
    intro a ha
    simp only [Bool.and_eq_true, beq_iff_eq] at ha
    simp [ha.1, ha.2]

/-- Claim C10 witness: on the two-row table `[veteran,
exampleSubscriber]` with `user_id = 42`, the group-chat row (index 0,
`chat_id = -100`) is untouched by the toggle, and the uniqueness bound
instantiates. -/
theorem C10_toggle_touches_only_private_row_witness :
    (toggle_notification_subscription [veteran, exampleSubscriber] 42)[0]? =
      some veteran ∧
    ([veteran, exampleSubscriber].filter
        (fun r => r.chat_id == 42 && r.user_id == 42)).length ≤ 1 := by
  exact ⟨(C10_toggle_touches_only_private_row [veteran, exampleSubscriber]
      42).1 0 veteran (by decide) (by decide),
    (C10_toggle_touches_only_private_row [veteran, exampleSubscriber]
      42).2.2 (by decide)⟩

/-! ## Claim C8 -/

/-- Structural facts about `group_by_chat`: each bucket collects exactly
the rows of its chat (hence is non-empty), the bucket keys are pairwise
distinct, and a key occurs iff some row has that chat. -/
theorem group_by_chat_sound :
    ∀ rs : List UserRow,
      (∀ g ∈ group_by_chat rs,
          g.2 = rs.filter (fun x => x.chat_id == g.1) ∧ g.2 ≠ []) ∧
      ((group_by_chat rs).map Prod.fst).Nodup ∧
      (∀ c : Int, c ∈ (group_by_chat rs).map Prod.fst ↔
          ∃ r ∈ rs, r.chat_id = c) := by
  have main : ∀ n : Nat, ∀ rs : List UserRow, rs.length ≤ n →
      (∀ g ∈ group_by_chat rs,
          g.2 = rs.filter (fun x => x.chat_id == g.1) ∧ g.2 ≠ []) ∧
      ((group_by_chat rs).map Prod.fst).Nodup ∧
      (∀ c : Int, c ∈ (group_by_chat rs).map Prod.fst ↔
          ∃ r ∈ rs, r.chat_id = c) := by
    intro n
    induction n with
    | zero =>
        intro rs h
        have hnil : rs = [] := List.eq_nil_of_length_eq_zero
          (Nat.le_zero.mp h)
        subst hnil
        refine ⟨?_, ?_, ?_⟩ <;> simp [group_by_chat]
    | succ n ih =>
        intro rs hlen
        match rs with
        | [] => refine ⟨?_, ?_, ?_⟩ <;> simp [group_by_chat]
        | r :: rs' =>
          rw [group_by_chat]
          have hBlen :
              (rs'.filter (fun x => !(x.chat_id == r.chat_id))).length ≤
                n := by
            have hf := List.length_filter_le
              (fun x => !(x.chat_id == r.chat_id)) rs'
            simp only [List.length_cons] at hlen
            omega
          obtain ⟨ihb, ihnd, ihiff⟩ :=
            ih (rs'.filter (fun x => !(x.chat_id == r.chat_id))) hBlen
          refine ⟨?_, ?_, ?_⟩
          · intro g hg
            rcases List.mem_cons.mp hg with rfl | hg2
            · constructor
              · simp [List.filter_cons]
              · simp
            · have hgB := ihb g hg2
              obtain ⟨x, hxB, hxc⟩ := (ihiff g.1).1
                (List.mem_map_of_mem Prod.fst hg2)
              have hxne : ¬ x.chat_id = r.chat_id := by
                have hin := (List.mem_filter.mp hxB).2
                simpa using hin
              have hgne : ¬ g.1 = r.chat_id := by
                rw [← hxc]; exact hxne
              refine ⟨?_, hgB.2⟩
              rw [hgB.1, List.filter_cons]
              have hhead : (r.chat_id == g.1) = false := by
                simp; intro hcontra
                exact hgne hcontra.symm
              rw [if_neg (by simp [hhead])]
              rw [List.filter_filter]
              apply List.filter_congr
              intro x2 hx2
              by_cases hc2 : (x2.chat_id == g.1) = true
              · have hxr : ¬ x2.chat_id = r.chat_id := by
                  rw [beq_iff_eq.mp hc2]
                  exact hgne
                simp [hc2, hxr]
              · rw [Bool.not_eq_true] at hc2
                simp [hc2]
          · simp only [List.map_cons, List.nodup_cons]
            refine ⟨?_, ihnd⟩
            intro hmem
            obtain ⟨x, hxB, hxc⟩ := (ihiff r.chat_id).1 hmem
            have hin := (List.mem_filter.mp hxB).2
            rw [hxc] at hin
            simp at hin
          · intro c
            simp only [List.map_cons, List.mem_cons]
            rw [ihiff c]
            constructor
            · rintro (rfl | ⟨x, hxB, hxc⟩)
              · exact ⟨r, Or.inl rfl, rfl⟩
              · exact ⟨x, Or.inr (List.mem_filter.mp hxB).1, hxc⟩
            · rintro ⟨x, hx, hxc⟩
              rcases hx with rfl | hx2
              · exact Or.inl hxc.symm
              · by_cases hcr : c = r.chat_id
                · exact Or.inl hcr
                · refine Or.inr ⟨x, ?_, hxc⟩
                  rw [List.mem_filter]
                  refine ⟨hx2, ?_⟩
                  simp [hxc, hcr]
  intro rs
  exact main rs.length rs (Nat.le_refl _)

/-- When every bucket is non-empty, the empty-mentions guard of
`welcome_messages` is dead code: the `filterMap` keeps every bucket. -/
theorem filterMap_welcome (l : List (Int × List UserRow))
    (h : ∀ g ∈ l, g.2 ≠ []) :
    (l.filterMap (fun g =>
      let mentions := g.2.map mention
      if mentions.isEmpty then none else some (g.1, mentions))) =
    l.map (fun g => (g.1, g.2.map mention)) := by
  induction l with
  | nil => rfl
  | cons x xs ih =>
      have hx : ((x.2.map mention).isEmpty) = false := by
        have hne := h x (List.mem_cons_self x xs)
        cases hx2 : x.2 with
        | nil => exact absurd hx2 hne
        | cons a l2 => simp [hx2]
      rw [List.filterMap_cons, List.map_cons]
      simp only [hx]
      rw [if_neg (by simp)]
      rw [ih (fun g hg => h g (List.mem_cons_of_mem _ hg))]

/-- In a list of pairs with pairwise-distinct first components, the number
of pairs carrying a given key is 1 when the key occurs and 0 otherwise. -/
theorem countP_fst_eq_of_nodup {β : Type} (c : Int) :
    ∀ l : List (Int × β), (l.map Prod.fst).Nodup →
      l.countP (fun m => m.1 == c) =
        if c ∈ l.map Prod.fst then 1 else 0 := by
  intro l
  induction l with
  | nil => simp
  | cons x xs ih =>
      intro h
      simp only [List.map_cons, List.nodup_cons] at h
      rw [List.countP_cons, ih h.2]
      by_cases hc : x.1 = c
      · subst hc
        have hnot : ¬ x.1 ∈ xs.map Prod.fst := h.1
        simp [hnot]
      · have hxc : ¬ c = x.1 := fun hcx => hc hcx.symm
        rw [List.map_cons]
        have hiffm : (c ∈ x.1 :: xs.map Prod.fst) ↔
            c ∈ xs.map Prod.fst := by
          rw [List.mem_cons]
          simp [hxc]
        rw [if_congr hiffm rfl rfl]
        simp [hc]

/-- Claim C8: every member who is welcome-eligible at the tick appears in
the single welcome message of their chat — per chat `c` the tick produces
exactly one outbound message when the chat has an eligible member (and
none otherwise), and that message mentions each eligible member of the
chat. -/
theorem C8_one_welcome_message_per_chat (t : List UserRow) (c : Int) :
    ((welcome_messages t).countP (fun m => m.1 == c) =
      if ∃ r ∈ get_unwelcomed_users_non_private t, r.chat_id = c then 1
      else 0) ∧
    (∀ r ∈ get_unwelcomed_users_non_private t, r.chat_id = c →
      ∃ m ∈ welcome_messages t, m.1 = c ∧ mention r ∈ m.2) := by
  obtain ⟨hb, hnd, hiff⟩ :=
    group_by_chat_sound (get_unwelcomed_users_non_private t)
  have hmsgs : welcome_messages t =
      (group_by_chat (get_unwelcomed_users_non_private t)).map
        (fun g => (g.1, g.2.map mention)) := by
    unfold welcome_messages
    exact filterMap_welcome _ (fun g hg => (hb g hg).2)
  have hmapfst :
      (((group_by_chat (get_unwelcomed_users_non_private t)).map
          (fun g => (g.1, g.2.map mention))).map Prod.fst) =
        (group_by_chat (get_unwelcomed_users_non_private t)).map
          Prod.fst := by
    rw [List.map_map]
    rfl
  constructor
  · rw [hmsgs, countP_fst_eq_of_nodup c _ (by rw [hmapfst]; exact hnd),
      hmapfst]
    by_cases hex : ∃ r ∈ get_unwelcomed_users_non_private t,
        r.chat_id = c
    · rw [if_pos ((hiff c).2 hex), if_pos hex]
    · rw [if_neg (fun hmem => hex ((hiff c).1 hmem)), if_neg hex]
  · intro r hr hrc
    have hkey : c ∈ (group_by_chat
        (get_unwelcomed_users_non_private t)).map Prod.fst :=
      (hiff c).2 ⟨r, hr, hrc⟩
    obtain ⟨g, hg, hgc⟩ := List.mem_map.mp hkey
    refine ⟨(g.1, g.2.map mention), ?_, hgc, ?_⟩
    · rw [hmsgs]
      exact List.mem_map_of_mem _ hg
    · have hrg : r ∈ g.2 := by
        rw [(hb g hg).1, List.mem_filter]
        exact ⟨hr, by simp [hrc, hgc]⟩
      exact List.mem_map_of_mem mention hrg

/-- Members of one chat used by the C8 and C9 witnesses. -/
def w1 : UserRow :=
  { chat_id := -100, user_id := 1, username := some "a",
    first_name := "A", join_time := 0 }

/-- Second member of the witness chat (no username, so the mention is the
HTML link form). -/
def w2 : UserRow :=
  { chat_id := -100, user_id := 2, username := none, first_name := "B",
    join_time := 0 }

/-- Third member of the witness chat. -/
def w3 : UserRow :=
  { chat_id := -100, user_id := 3, username := some "c",
    first_name := "C", join_time := 0 }

/-- Claim C8 witness: with three welcome-eligible members of chat `-100`,
the tick emits exactly one message for that chat, and it mentions `w2`. -/
theorem C8_one_welcome_message_per_chat_witness :
    (welcome_messages [w1, w2, w3]).countP (fun m => m.1 == -100) = 1 ∧
    ∃ m ∈ welcome_messages [w1, w2, w3], m.1 = -100 ∧ mention w2 ∈ m.2 := by
  constructor
  · rw [(C8_one_welcome_message_per_chat [w1, w2, w3] (-100)).1]
    rw [if_pos ⟨w1, by decide, rfl⟩]
  · exact (C8_one_welcome_message_per_chat [w1, w2, w3] (-100)).2 w2
      (by decide) rfl

/-! ## Claim C9 -/

/-- One chat's step of the welcome tick, read off at any row index: the
row is unchanged unless its chat's delivery succeeded, in which case at
most its `welcomed` flag is set. -/
theorem welcome_step_pointwise (notif : Int → Bool)
    (tbl : List UserRow) (g : Int × List UserRow) (i : Nat) (r : UserRow)
    (h : tbl[i]? = some r) :
    ∃ r', (welcome_step notif tbl g)[i]? = some r' ∧
      (r' = r ∨ (notif r.chat_id = true ∧
        r' = { r with welcomed := true })) := by
  unfold welcome_step
  split_ifs with hm hn
  · exact ⟨r, h, Or.inl rfl⟩
  · unfold mark_users_welcomed
    rw [List.getElem?_map, h, Option.map_some']
    refine ⟨_, rfl, ?_⟩
    by_cases hc : (r.chat_id == g.1 &&
        (g.2.map (fun u => u.user_id)).contains r.user_id) = true
    · rw [if_pos hc]
      refine Or.inr ⟨?_, rfl⟩
      have hceq : r.chat_id = g.1 :=
        beq_iff_eq.mp ((Bool.and_eq_true _ _).mp hc).1
      rw [hceq]
      exact hn
    · rw [if_neg hc]
      exact Or.inl rfl
  · exact ⟨r, h, Or.inl rfl⟩

/-- The welcome tick's whole per-chat fold, read off at any row index. -/
theorem foldl_welcome_step (notif : Int → Bool) :
    ∀ (gs : List (Int × List UserRow)) (tbl : List UserRow) (i : Nat)
      (r : UserRow), tbl[i]? = some r →
      ∃ r', (gs.foldl (welcome_step notif) tbl)[i]? = some r' ∧
        (r' = r ∨ (notif r.chat_id = true ∧
          r' = { r with welcomed := true })) := by
  intro gs
  induction gs with
  | nil => exact fun tbl i r h => ⟨r, h, Or.inl rfl⟩
  | cons g gs ih =>
      intro tbl i r h
      obtain ⟨r1, h1, hd1⟩ := welcome_step_pointwise notif tbl g i r h
      obtain ⟨r2, h2, hd2⟩ := ih (welcome_step notif tbl g) i r1 h1
      rw [List.foldl_cons]
      refine ⟨r2, h2, ?_⟩
      rcases hd1 with rfl | ⟨hn1, rfl⟩
      · exact hd2
      · rcases hd2 with rfl | ⟨hn2, rfl⟩
        · exact Or.inr ⟨hn1, rfl⟩
        · exact Or.inr ⟨hn1, rfl⟩

/-- One chat's step of the intro tick, read off at any row index. -/
theorem intro_step_pointwise (notif : Int → Bool)
    (tbl : List UserRow) (g : Int × List UserRow) (i : Nat) (r : UserRow)
    (h : tbl[i]? = some r) :
    ∃ r', (intro_step notif tbl g)[i]? = some r' ∧
      (r' = r ∨ (notif r.chat_id = true ∧
        r' = { r with first_intro_sent := true })) := by
  unfold intro_step
  split_ifs with hm hn
  · exact ⟨r, h, Or.inl rfl⟩
  · unfold mark_users_intro_sent
    rw [List.getElem?_map, h, Option.map_some']
    refine ⟨_, rfl, ?_⟩
    by_cases hc : (r.chat_id == g.1 &&
        (g.2.map (fun u => u.user_id)).contains r.user_id) = true
    · rw [if_pos hc]
      refine Or.inr ⟨?_, rfl⟩
      have hceq : r.chat_id = g.1 :=
        beq_iff_eq.mp ((Bool.and_eq_true _ _).mp hc).1
      rw [hceq]
      exact hn
    · rw [if_neg hc]
      exact Or.inl rfl
  · exact ⟨r, h, Or.inl rfl⟩

/-- The intro tick's whole per-chat fold, read off at any row index. -/
theorem foldl_intro_step (notif : Int → Bool) :
    ∀ (gs : List (Int × List UserRow)) (tbl : List UserRow) (i : Nat)
      (r : UserRow), tbl[i]? = some r →
      ∃ r', (gs.foldl (intro_step notif) tbl)[i]? = some r' ∧
        (r' = r ∨ (notif r.chat_id = true ∧
          r' = { r with first_intro_sent := true })) := by
  intro gs
  induction gs with
  | nil => exact fun tbl i r h => ⟨r, h, Or.inl rfl⟩
  | cons g gs ih =>
      intro tbl i r h
      obtain ⟨r1, h1, hd1⟩ := intro_step_pointwise notif tbl g i r h
      obtain ⟨r2, h2, hd2⟩ := ih (intro_step notif tbl g) i r1 h1
      rw [List.foldl_cons]
      refine ⟨r2, h2, ?_⟩
      rcases hd1 with rfl | ⟨hn1, rfl⟩
      · exact hd2
      · rcases hd2 with rfl | ⟨hn2, rfl⟩
        · exact Or.inr ⟨hn1, rfl⟩
        · exact Or.inr ⟨hn1, rfl⟩

/-- Claim C9: a sent-state marker is persisted only behind a successful
delivery.  For every row of the users table, after the welcome tick the
row is unchanged unless delivery to its chat succeeded — in particular
when delivery to a chat fails, no member of that chat's batch is marked
welcomed, so they are retried at a later tick — and the only possible
change is `welcomed := true`; likewise for the intro tick and
`first_intro_sent`.  (Event reminder offsets are never persisted at all:
`body_tick` returns the events table unchanged, see C1/C5.) -/
theorem C9_mark_only_after_delivery (t : List UserRow)
    (notif : Int → Bool) (now day : Int) (i : Nat) (r : UserRow)
    (h : t[i]? = some r) :
    (∃ r', (send_daily_welcome t notif)[i]? = some r' ∧
      (r' = r ∨ (notif r.chat_id = true ∧
        r' = { r with welcomed := true }))) ∧
    (∃ r', (send_intro_reminders t now day notif)[i]? = some r' ∧
      (r' = r ∨ (notif r.chat_id = true ∧
        r' = { r with first_intro_sent := true }))) := by
  constructor
  · exact foldl_welcome_step notif
      (group_by_chat (get_unwelcomed_users_non_private t)) t i r h
  · unfold send_intro_reminders
    split_ifs with hday
    · exact foldl_intro_step notif
        (group_by_chat (get_users_for_intro t "first" now)) t i r h
    · exact ⟨r, h, Or.inl rfl⟩

/-- Claim C9 witness: for the one-member chat `[w1]` with a notifier that
fails for every chat, the theorem instantiates at index 0. -/
theorem C9_mark_only_after_delivery_witness :
    ∃ r', (send_daily_welcome [w1] (fun _ => false))[0]? = some r' ∧
      (r' = w1 ∨ ((fun _ => false) w1.chat_id = true ∧
        r' = { w1 with welcomed := true })) :=
  (C9_mark_only_after_delivery [w1] (fun _ => false) 0 1 0 w1 rfl).1

end Concierge
